import Mathlib

/-!
Shallow embedding of the pybricks motor-observer core
(`src/lib/pbio/src/observer.c`), the tacho setup path
(`src/lib/pbio/src/tacho.c`) and the blocking connect/wait wrappers
(`src/pybricks/pupdevices/pb_type_pupdevices_remote.c`,
`pbiodevice.c`), together with theorems checking the specification
claims against these definitions.

Conventions: C `int32_t` values are embedded as `Int` (the C program has
defined behaviour only on non-overflowing executions, which the unbounded
integers capture exactly); C signed division `/` truncates toward zero and
is embedded as `Int.tdiv`.  C `uint32_t` timestamps are embedded as `Nat`
together with explicit wrap-around subtraction modulo `2 ^ 32`.
-/

/-- Truncated division, the semantics of C signed `/`. -/
def cdiv (a b : Int) : Int := a.tdiv b

/-- Wrap-around subtraction of `uint32_t` timestamps: `(a - b) mod 2^32`. -/
def u32_sub (a b : Nat) : Nat :=
  (a % 4294967296 + 4294967296 - b % 4294967296) % 4294967296

/-- `pbio_int_math_clamp(value, abs_max)`: clamps `value` to the symmetric
inclusive range `[-abs_max, abs_max]` (from `pbio/int_math`, as described in
the spec's numeric-range table). -/
def pbio_int_math_clamp (value absMax : Int) : Int :=
  if value > absMax then absMax
  else if value < -absMax then -absMax
  else value

-- Constants from observer.c (generated by pbio/doc/control/model.py).

def MAX_NUM_SPEED : Int := 2500000
def MAX_NUM_ACCELERATION : Int := 2500000
def MAX_NUM_CURRENT : Int := 30000
def MAX_NUM_VOLTAGE : Int := 12000
def MAX_NUM_TORQUE : Int := 1000000
def PRESCALE_SPEED : Int := 858
def PRESCALE_ACCELERATION : Int := 858
def PRESCALE_CURRENT : Int := 71582
def PRESCALE_VOLTAGE : Int := 178956
def PRESCALE_TORQUE : Int := 2147

/-- Modelled from the spec: `Angle` is `{ rotations: i32, millidegrees: i32 }`
(`pbio/angle.h`, not under `src/`). -/
structure pbio_angle where
  rotations : Int
  millidegrees : Int
deriving Repr, DecidableEq

/-- Modelled from the spec: `difference(a, b)` is the signed millidegree
difference accounting for whole rotations (`pbio_angle_diff_mdeg` of
`pbio/angle.c`, not under `src/`). -/
def pbio_angle_diff_mdeg (a b : pbio_angle) : Int :=
  (a.rotations - b.rotations) * 360000 + (a.millidegrees - b.millidegrees)

/-- Modelled from the spec: adding a millidegree delta carries whole turns of
360000 millidegrees into the rotation count (`pbio_angle_add_mdeg` of
`pbio/angle.c`, not under `src/`). -/
def pbio_angle_add_mdeg (a : pbio_angle) (mdeg : Int) : pbio_angle :=
  let total := a.millidegrees + mdeg
  ⟨a.rotations + total.fdiv 360000, total.emod 360000⟩

/-- Modelled from the spec: the differentiator keeps the previous raw angle
sample and reports a numeric derivative (diagnostic only; `pbio/differentiator`,
not under `src/`). -/
structure pbio_differentiator where
  prev : pbio_angle
deriving Repr, DecidableEq

/-- Modelled from the spec: numeric speed from consecutive angle samples;
updates the stored sample (`pbio_differentiator_get_speed`, not under `src/`). -/
def pbio_differentiator_get_speed (d : pbio_differentiator) (angle : pbio_angle) :
    Int × pbio_differentiator :=
  (pbio_angle_diff_mdeg angle d.prev, ⟨angle⟩)

/-- Modelled from the spec: resets the differentiator to the given angle
(`pbio_differentiator_reset`, not under `src/`). -/
def pbio_differentiator_reset (angle : pbio_angle) : pbio_differentiator :=
  ⟨angle⟩

/-- Modelled from the spec: `get_feedback_voltage` "returns
`clamp(error * feedback_gain, ±MAX_VOLTAGE)`"; this is the multiplication by
the gain (`pbio_control_settings_mul_by_gain`, not under `src/`). -/
def pbio_control_settings_mul_by_gain (value gain : Int) : Int :=
  value * gain

/-- `pbio_dcmotor_actuation_t`: the mode a motor is driven in. -/
inductive pbio_dcmotor_actuation where
  | coast
  | brake
  | voltage
  | torque
deriving Repr, DecidableEq

/-- The calibration coefficients of the observer model
(`pbio_observer_model_t`). -/
structure pbio_observer_model where
  d_angle_d_speed : Int
  d_angle_d_current : Int
  d_angle_d_voltage : Int
  d_angle_d_torque : Int
  d_speed_d_speed : Int
  d_speed_d_current : Int
  d_speed_d_voltage : Int
  d_speed_d_torque : Int
  d_current_d_speed : Int
  d_current_d_current : Int
  d_current_d_voltage : Int
  d_current_d_torque : Int
  d_voltage_d_torque : Int
  d_torque_d_voltage : Int
  d_torque_d_speed : Int
  d_torque_d_acceleration : Int
  torque_friction : Int
deriving Repr, DecidableEq

/-- The observer settings (`stall_speed_limit`, `stall_time`,
`feedback_gain`). -/
structure pbio_observer_settings where
  stall_speed_limit : Int
  stall_time : Nat
  feedback_gain : Int
deriving Repr, DecidableEq

/-- The mutable observer state (`pbio_observer_t`, with the immutable model
and settings passed separately to each operation). -/
structure pbio_observer where
  angle : pbio_angle
  speed : Int
  current : Int
  speed_numeric : Int
  stalled : Bool
  stall_start : Nat
  differentiator : pbio_differentiator
deriving Repr, DecidableEq

/-- `pbio_observer_reset`: resets angle to the input, speed and current to
zero, clears the stall flag and resets the differentiator. -/
def pbio_observer_reset (obs : pbio_observer) (angle : pbio_angle) : pbio_observer :=
  { obs with
    angle := angle
    speed := 0
    current := 0
    stalled := false
    differentiator := pbio_differentiator_reset angle }

/-- `pbio_observer_torque_to_voltage`. -/
def pbio_observer_torque_to_voltage (m : pbio_observer_model) (desired_torque : Int) : Int :=
  cdiv (PRESCALE_TORQUE * pbio_int_math_clamp desired_torque MAX_NUM_TORQUE) m.d_voltage_d_torque

/-- `pbio_observer_voltage_to_torque`. -/
def pbio_observer_voltage_to_torque (m : pbio_observer_model) (voltage : Int) : Int :=
  cdiv (PRESCALE_VOLTAGE * pbio_int_math_clamp voltage MAX_NUM_VOLTAGE) m.d_torque_d_voltage

/-- `pbio_observer_get_feedback_voltage`: proportional corrective voltage,
clamped to `±MAX_NUM_VOLTAGE`. -/
def pbio_observer_get_feedback_voltage (s : pbio_observer_settings)
    (obs : pbio_observer) (angle : pbio_angle) : Int :=
  pbio_int_math_clamp
    (pbio_control_settings_mul_by_gain (pbio_angle_diff_mdeg angle obs.angle) s.feedback_gain)
    MAX_NUM_VOLTAGE

/-- `update_stall_state` (observer.c lines 64-102): raw per-tick stall
detection with normalization to forward motion and rising-edge latch of
`stall_start`. -/
def update_stall_state (m : pbio_observer_model) (s : pbio_observer_settings)
    (obs : pbio_observer) (time : Nat) (actuation : pbio_dcmotor_actuation)
    (voltage feedback_voltage : Int) : pbio_observer :=
  if actuation ≠ pbio_dcmotor_actuation.voltage then
    { obs with stalled := false }
  else
    -- Convert to forward motion to simplify checks.
    let speed := if voltage < 0 then -obs.speed else obs.speed
    let fb := if voltage < 0 then -feedback_voltage else feedback_voltage
    let v := if voltage < 0 then -voltage else voltage
    if speed < s.stall_speed_limit ∧ fb < 0 ∧ -fb > cdiv (v * 3) 4 ∧
        v > 5 * pbio_observer_torque_to_voltage m (cdiv m.torque_friction 2) then
      if !obs.stalled then
        { obs with stalled := true, stall_start := time }
      else
        { obs with stalled := true }
    else
      { obs with stalled := false }

/-- The friction torque term of observer.c line 147:
`obs->speed > 0 ? m->torque_friction / 2 : -m->torque_friction / 2`. -/
def friction_torque (m : pbio_observer_model) (speed : Int) : Int :=
  if speed > 0 then cdiv m.torque_friction 2 else cdiv (-m.torque_friction) 2

/-- The torque column of the speed row of the state update:
`PRESCALE_TORQUE * torque / m->d_speed_d_torque`. -/
def observer_speed_torque_term (m : pbio_observer_model) (torque : Int) : Int :=
  cdiv (PRESCALE_TORQUE * torque) m.d_speed_d_torque

/-- The unclamped next-speed weighted sum of observer.c lines 155-159. -/
def observer_speed_next_unclamped (m : pbio_observer_model)
    (speed current voltage torque : Int) : Int :=
  cdiv (PRESCALE_SPEED * speed) m.d_speed_d_speed +
  cdiv (PRESCALE_CURRENT * current) m.d_speed_d_current +
  cdiv (PRESCALE_VOLTAGE * voltage) m.d_speed_d_voltage +
  observer_speed_torque_term m torque

/-- The unclamped next-current weighted sum of observer.c lines 160-164. -/
def observer_current_next_unclamped (m : pbio_observer_model)
    (speed current voltage torque : Int) : Int :=
  cdiv (PRESCALE_SPEED * speed) m.d_current_d_speed +
  cdiv (PRESCALE_CURRENT * current) m.d_current_d_current +
  cdiv (PRESCALE_VOLTAGE * voltage) m.d_current_d_voltage +
  cdiv (PRESCALE_TORQUE * torque) m.d_current_d_torque

/-- The angle increment of observer.c lines 150-154. -/
def observer_angle_increment (m : pbio_observer_model)
    (speed current voltage torque : Int) : Int :=
  cdiv (PRESCALE_SPEED * speed) m.d_angle_d_speed +
  cdiv (PRESCALE_CURRENT * current) m.d_angle_d_current +
  cdiv (PRESCALE_VOLTAGE * voltage) m.d_angle_d_voltage +
  cdiv (PRESCALE_TORQUE * torque) m.d_angle_d_torque

/-- `pbio_observer_update` (observer.c lines 125-174): one estimator tick. -/
def pbio_observer_update (m : pbio_observer_model) (s : pbio_observer_settings)
    (obs : pbio_observer) (time : Nat) (angle : pbio_angle)
    (actuation : pbio_dcmotor_actuation) (voltage : Int) : pbio_observer :=
  -- Update numerical derivative as speed sanity check.
  let sn := pbio_differentiator_get_speed obs.differentiator angle
  let obs1 := { obs with speed_numeric := sn.1, differentiator := sn.2 }
  -- Apply observer error feedback as voltage.
  let feedback_voltage := pbio_observer_get_feedback_voltage s obs1 angle
  -- Check stall condition.
  let obs2 := update_stall_state m s obs1 time actuation voltage feedback_voltage
  -- The observer will get the applied voltage plus the feedback voltage.
  let v := voltage + feedback_voltage
  -- The only modeled torque is a static friction torque.
  let torque := friction_torque m obs2.speed
  -- Get next state based on current state and input: x(k+1) = Ax(k) + Bu(k)
  let angle_next :=
    pbio_angle_add_mdeg obs2.angle (observer_angle_increment m obs2.speed obs2.current v torque)
  let speed_next :=
    pbio_int_math_clamp (observer_speed_next_unclamped m obs2.speed obs2.current v torque)
      MAX_NUM_SPEED
  let current_next :=
    pbio_int_math_clamp (observer_current_next_unclamped m obs2.speed obs2.current v torque)
      MAX_NUM_CURRENT
  -- Zero-crossing guard for the crude friction model.
  let speed_next :=
    if (decide (speed_next < 0)) ≠
        (decide (speed_next - observer_speed_torque_term m torque < 0)) then
      0
    else speed_next
  { obs2 with angle := angle_next, speed := speed_next, current := current_next }

/-- `pbio_observer_is_stalled` (observer.c lines 185-193): debounced stall
flag together with the value written to `*stall_duration`. -/
def pbio_observer_is_stalled (s : pbio_observer_settings) (obs : pbio_observer)
    (time : Nat) : Bool × Nat :=
  if obs.stalled ∧ u32_sub time obs.stall_start > s.stall_time then
    (true, u32_sub time obs.stall_start)
  else
    (false, 0)

/-- One input record of an `pbio_observer_update` call. -/
structure observer_input where
  time : Nat
  angle : pbio_angle
  actuation : pbio_dcmotor_actuation
  voltage : Int
deriving Repr, DecidableEq

/-- A sequence of `pbio_observer_update` calls, applied in order. -/
def observer_run (m : pbio_observer_model) (s : pbio_observer_settings)
    (obs : pbio_observer) (inputs : List observer_input) : pbio_observer :=
  inputs.foldl (fun o i => pbio_observer_update m s o i.time i.angle i.actuation i.voltage) obs

/-- The raw per-tick stall condition of `update_stall_state`, expressed on the
pre-update observer state and the inputs of one `pbio_observer_update` call
(the feedback voltage is the one the update computes for these inputs). -/
def stall_condition (m : pbio_observer_model) (s : pbio_observer_settings)
    (obs : pbio_observer) (inp : observer_input) : Prop :=
  inp.actuation = pbio_dcmotor_actuation.voltage ∧
  (let fbv := pbio_observer_get_feedback_voltage s obs inp.angle
   let speed := if inp.voltage < 0 then -obs.speed else obs.speed
   let fb := if inp.voltage < 0 then -fbv else fbv
   let v := if inp.voltage < 0 then -inp.voltage else inp.voltage
   speed < s.stall_speed_limit ∧ fb < 0 ∧ -fb > cdiv (v * 3) 4 ∧
     v > 5 * pbio_observer_torque_to_voltage m (cdiv m.torque_friction 2))

/-- The per-tick stall condition holds at every step of a run. -/
def stall_condition_all (m : pbio_observer_model) (s : pbio_observer_settings) :
    pbio_observer → List observer_input → Prop
  | _, [] => True
  | obs, inp :: rest =>
    stall_condition m s obs inp ∧
      stall_condition_all m s
        (pbio_observer_update m s obs inp.time inp.angle inp.actuation inp.voltage) rest

-- Tacho setup (`src/lib/pbio/src/tacho.c`).

/-- `pbio_error_t` error codes (the ones this development needs). -/
inductive pbio_error where
  | success
  | invalid_arg
  | invalid_port
  | no_dev
  | busy
  | again
  | timedout
  | canceled
deriving Repr, DecidableEq

/-- `pbio_direction_t`. -/
inductive pbio_direction where
  | clockwise
  | counterclockwise
deriving Repr, DecidableEq

/-- Modelled from the spec: `fix16_mul` multiplies two fixed-point scale
factors (16 fractional bits; libfixmath, not under `src/`). -/
def fix16_mul (a b : Int) : Int :=
  cdiv (a * b) 65536

/-- The driver results seen by one tacho setup call: the outcome of
`pbdrv_counter_get`, of `pbdrv_counter_get_abs_count` and of
`pbdrv_counter_get_count` (the counter driver is an external collaborator). -/
structure pbdrv_counter_env where
  get_result : pbio_error
  abs_count_result : pbio_error × Int
  get_count_result : pbio_error × Int
deriving Repr, DecidableEq

/-- `pbio_tacho_t`: the mutable tacho configuration.  `counter` records
whether the counter device handle has been stored. -/
structure pbio_tacho where
  counts_per_degree : Int
  counts_per_output_unit : Int
  direction : pbio_direction
  offset : Int
  counter : Bool
deriving Repr, DecidableEq

/-- `pbio_tacho_get_count`: driver count with direction sign and offset. -/
def pbio_tacho_get_count (env : pbdrv_counter_env) (tacho : pbio_tacho) :
    pbio_error × Int :=
  let e := env.get_count_result.1
  if e ≠ pbio_error.success then (e, env.get_count_result.2)
  else
    let count := if tacho.direction = pbio_direction.counterclockwise then
        -env.get_count_result.2 else env.get_count_result.2
    (pbio_error.success, count - tacho.offset)

/-- `pbio_tacho_reset_count`: recomputes the offset so that the tacho output
becomes `reset_count`. -/
def pbio_tacho_reset_count (env : pbdrv_counter_env) (tacho : pbio_tacho)
    (reset_count : Int) : pbio_error × pbio_tacho :=
  let r := pbio_tacho_get_count env tacho
  if r.1 ≠ pbio_error.success then (r.1, tacho)
  else
    let count_no_offset := r.2 + tacho.offset
    (pbio_error.success, { tacho with offset := count_no_offset - reset_count })

/-- `pbio_tacho_setup` (tacho.c lines 17-47).  The returned `Bool` records
whether the counter device was touched (i.e. whether `pbdrv_counter_get` was
called); on the invalid-argument path the input state is returned unchanged. -/
def pbio_tacho_setup (env : pbdrv_counter_env) (tacho : pbio_tacho)
    (direction : pbio_direction) (counts_per_degree gearRatio : Int) :
    pbio_error × pbio_tacho × Bool :=
  -- Assert that scaling factors are positive
  if gearRatio < 0 ∨ counts_per_degree < 0 then
    (pbio_error.invalid_arg, tacho, false)
  else
    let t1 : pbio_tacho :=
      { tacho with
        counts_per_degree := counts_per_degree
        counts_per_output_unit := fix16_mul counts_per_degree gearRatio
        direction := direction }
    if env.get_result ≠ pbio_error.success then
      (env.get_result, t1, true)
    else
      let t2 := { t1 with counter := true }
      let abs_count :=
        if env.abs_count_result.1 ≠ pbio_error.success then 0 else env.abs_count_result.2
      let abs_count :=
        if direction = pbio_direction.counterclockwise then -abs_count else abs_count
      let r := pbio_tacho_reset_count env t2 abs_count
      (r.1, r.2, true)

/-- `pbio_tacho_get` (tacho.c lines 49-63): validates the port and then runs
`pbio_tacho_setup`; the port bounds are the `PBDRV_CONFIG_FIRST_MOTOR_PORT`
and `PBDRV_CONFIG_LAST_MOTOR_PORT` configuration constants. -/
def pbio_tacho_get (env : pbdrv_counter_env) (first_port last_port port : Int)
    (tacho : pbio_tacho) (direction : pbio_direction)
    (counts_per_degree gearRatio : Int) : pbio_error × pbio_tacho × Bool :=
  if port < first_port ∨ port > last_port then
    (pbio_error.invalid_port, tacho, false)
  else
    pbio_tacho_setup env tacho direction counts_per_degree gearRatio

-- Blocking connect/wait wrappers
-- (`pb_remote_connect` of pb_type_pupdevices_remote.c, `wait` of pbiodevice.c).

/-- The abort reasons tracked for the blocking wrappers: the timeout raised by
the wrapper itself, or an interrupt/exception delivered while polling. -/
inductive mp_exc where
  | timedout
  | interrupted
deriving Repr, DecidableEq

/-- The environment of one blocking wrapper call: the task status trace as a
function of how many event-loop iterations have run, the status trace observed
after the task's cancel function has been invoked, whether the poll hook at a
given iteration delivers an interrupt, and the millisecond clock. -/
structure task_world where
  status : Nat → pbio_error
  cancel_status : Nat → pbio_error
  interrupt : Nat → Bool
  ticks : Nat → Int

/-- The outcome of a blocking wrapper: either the task reached a terminal
status which is reported (`done`), or the wait was aborted, the task was
cancelled and drained, and the abort reason is propagated together with the
final drained status (`aborted`). -/
inductive wrapper_outcome where
  | done : pbio_error → wrapper_outcome
  | aborted : mp_exc → pbio_error → wrapper_outcome
deriving Repr, DecidableEq

/-- The drain loop run inside the `nlr` handler after `cancel` has been
invoked: keep polling (`while (status == AGAIN)`) until the status is no
longer `again`.  Returns the first non-`again` status and its index, or
`none` when the fuel runs out before the task terminates. -/
def task_drain (w : task_world) : Nat → Nat → Option (Nat × pbio_error)
  | 0, _ => none
  | fuel + 1, k =>
    if w.cancel_status k = pbio_error.again then task_drain w fuel (k + 1)
    else some (k, w.cancel_status k)

/-- The `nlr` handler shared by both wrappers: invoke the task's cancel
function, then drain (`task_drain`) until the status is no longer `again`,
and only then propagate the abort reason. -/
def drain_and_abort (w : task_world) (drainFuel : Nat) (e : mp_exc) :
    Option wrapper_outcome :=
  (task_drain w drainFuel 0).map (fun r => wrapper_outcome.aborted e r.2)

/-- The polling loop of `pb_remote_connect` (remote.c lines 65-84).  At
iteration `n` the loop first checks the timeout, then runs the event-poll
hook (which may deliver an interrupt), then reads the task status.  Both a
timeout and an interrupt unwind to the `nlr` handler, which cancels the task,
drains it to a terminal status, and only then propagates the abort. -/
def remote_connect_loop (w : task_world) (timeout : Int) (drainFuel : Nat) :
    Nat → Nat → Option wrapper_outcome
  | 0, _ => none
  | fuel + 1, n =>
    if timeout = -1 ∨ w.ticks n - w.ticks 0 < timeout then
      if w.interrupt n then
        drain_and_abort w drainFuel mp_exc.interrupted
      else if w.status (n + 1) ≠ pbio_error.again then
        some (wrapper_outcome.done (w.status (n + 1)))
      else
        remote_connect_loop w timeout drainFuel fuel (n + 1)
    else
      drain_and_abort w drainFuel mp_exc.timedout

/-- `pb_remote_connect` (remote.c lines 55-85), as a function of the task
world, the timeout and the polling fuel. -/
def pb_remote_connect (w : task_world) (timeout : Int) (fuel drainFuel : Nat) :
    Option wrapper_outcome :=
  remote_connect_loop w timeout drainFuel fuel 0

/-- The polling loop of the blocking `wait` helper (pbiodevice.c lines 72-89):
poll the end function first; while it returns `again`, run the event-poll hook
(which may deliver an interrupt that unwinds to the handler: cancel, drain,
re-raise). -/
def device_wait_loop (w : task_world) (drainFuel : Nat) :
    Nat → Nat → Option wrapper_outcome
  | 0, _ => none
  | fuel + 1, n =>
    if w.status n ≠ pbio_error.again then
      some (wrapper_outcome.done (w.status n))
    else if w.interrupt n then
      drain_and_abort w drainFuel mp_exc.interrupted
    else
      device_wait_loop w drainFuel fuel (n + 1)

/-- The blocking `wait` helper (pbiodevice.c lines 72-89). -/
def device_wait (w : task_world) (fuel drainFuel : Nat) : Option wrapper_outcome :=
  device_wait_loop w drainFuel fuel 0

-- Concrete instances used by counterexamples and witnesses.

/-- A simple observer model with unit coefficients and no friction. -/
def mdl1 : pbio_observer_model :=
  { d_angle_d_speed := 1, d_angle_d_current := 1, d_angle_d_voltage := 1,
    d_angle_d_torque := 1, d_speed_d_speed := 1, d_speed_d_current := 1,
    d_speed_d_voltage := 1, d_speed_d_torque := 1, d_current_d_speed := 1,
    d_current_d_current := 1, d_current_d_voltage := 1, d_current_d_torque := 1,
    d_voltage_d_torque := 1, d_torque_d_voltage := 1, d_torque_d_speed := 1,
    d_torque_d_acceleration := 1, torque_friction := 0 }

/-- A model with strong friction and negligible current/voltage influence on
speed, used to exercise the zero-crossing guard. -/
def mdl4 : pbio_observer_model :=
  { mdl1 with
    d_speed_d_current := 1000000000
    d_speed_d_voltage := 1000000000
    torque_friction := 4000 }

/-- A model whose torque/voltage coefficients are exact inverses under the
prescale constants. -/
def mdl7 : pbio_observer_model :=
  { mdl1 with d_voltage_d_torque := 178956, d_torque_d_voltage := 2147 }

/-- Settings: stall speed limit 50 mdeg/s, stall time 100 ms, unit gain. -/
def set1 : pbio_observer_settings := ⟨50, 100, 1⟩

/-- A freshly reset observer at angle zero. -/
def obs0 : pbio_observer :=
  { angle := ⟨0, 0⟩, speed := 0, current := 0, speed_numeric := 0,
    stalled := false, stall_start := 77, differentiator := ⟨⟨0, 0⟩⟩ }

/-- An observer moving at 10000 mdeg/s. -/
def obs4 : pbio_observer :=
  { obs0 with speed := 10000 }

/-- An update input whose measured angle lags the estimate by 5000 mdeg under
6000 mV drive: all four stall conditions hold for `obs0` with `set1`/`mdl1`. -/
def inp_stall : observer_input :=
  ⟨0, ⟨-1, 355000⟩, pbio_dcmotor_actuation.voltage, 6000⟩

/-- A driver environment where every counter operation succeeds with count 0. -/
def env9 : pbdrv_counter_env :=
  ⟨pbio_error.success, (pbio_error.success, 0), (pbio_error.success, 0)⟩

/-- An arbitrary pre-setup tacho state. -/
def tacho9 : pbio_tacho := ⟨7, 7, pbio_direction.clockwise, 3, false⟩

/-- A task world where the task never finishes on its own, an interrupt
arrives at iteration 1, and cancellation terminates after two drain polls. -/
def w8 : task_world :=
  { status := fun _ => pbio_error.again
    cancel_status := fun n => if n < 2 then pbio_error.again else pbio_error.canceled
    interrupt := fun n => n == 1
    ticks := fun n => (n : Int) }

instance (m : pbio_observer_model) (s : pbio_observer_settings)
    (obs : pbio_observer) (inp : observer_input) :
    Decidable (stall_condition m s obs inp) := by
  unfold stall_condition
  infer_instance

instance stall_condition_all_decidable (m : pbio_observer_model)
    (s : pbio_observer_settings) :
    (obs : pbio_observer) → (inputs : List observer_input) →
      Decidable (stall_condition_all m s obs inputs)
  | _, [] => isTrue trivial
  | obs, inp :: rest => by
    unfold stall_condition_all
    have := stall_condition_all_decidable m s
      (pbio_observer_update m s obs inp.time inp.angle inp.actuation inp.voltage) rest
    infer_instance

-- Helper lemmas about the embedding (shared by several claims).

lemma update_stall_state_speed (m : pbio_observer_model) (s : pbio_observer_settings)
    (obs : pbio_observer) (time : Nat) (act : pbio_dcmotor_actuation) (v fb : Int) :
    (update_stall_state m s obs time act v fb).speed = obs.speed := by
  unfold update_stall_state
  split_ifs <;> dsimp only <;> first | rfl | (split <;> rfl)

lemma update_stall_state_current (m : pbio_observer_model) (s : pbio_observer_settings)
    (obs : pbio_observer) (time : Nat) (act : pbio_dcmotor_actuation) (v fb : Int) :
    (update_stall_state m s obs time act v fb).current = obs.current := by
  unfold update_stall_state
  split_ifs <;> dsimp only <;> first | rfl | (split <;> rfl)

lemma update_stall_state_angle (m : pbio_observer_model) (s : pbio_observer_settings)
    (obs : pbio_observer) (time : Nat) (act : pbio_dcmotor_actuation) (v fb : Int) :
    (update_stall_state m s obs time act v fb).angle = obs.angle := by
  unfold update_stall_state
  split_ifs <;> dsimp only <;> first | rfl | (split <;> rfl)

lemma update_stall_state_non_voltage (m : pbio_observer_model) (s : pbio_observer_settings)
    (obs : pbio_observer) (time : Nat) (act : pbio_dcmotor_actuation) (v fb : Int)
    (h : act ≠ pbio_dcmotor_actuation.voltage) :
    (update_stall_state m s obs time act v fb).stalled = false := by
  unfold update_stall_state
  rw [if_pos h]

lemma pbio_observer_update_stalled (m : pbio_observer_model) (s : pbio_observer_settings)
    (obs : pbio_observer) (time : Nat) (angle : pbio_angle)
    (act : pbio_dcmotor_actuation) (voltage : Int) :
    (pbio_observer_update m s obs time angle act voltage).stalled =
      (update_stall_state m s
        { obs with
          speed_numeric := (pbio_differentiator_get_speed obs.differentiator angle).1
          differentiator := (pbio_differentiator_get_speed obs.differentiator angle).2 }
        time act voltage (pbio_observer_get_feedback_voltage s obs angle)).stalled := by
  rfl

lemma pbio_observer_update_stall_start (m : pbio_observer_model) (s : pbio_observer_settings)
    (obs : pbio_observer) (time : Nat) (angle : pbio_angle)
    (act : pbio_dcmotor_actuation) (voltage : Int) :
    (pbio_observer_update m s obs time angle act voltage).stall_start =
      (update_stall_state m s
        { obs with
          speed_numeric := (pbio_differentiator_get_speed obs.differentiator angle).1
          differentiator := (pbio_differentiator_get_speed obs.differentiator angle).2 }
        time act voltage (pbio_observer_get_feedback_voltage s obs angle)).stall_start := by
  rfl

lemma observer_run_cons (m : pbio_observer_model) (s : pbio_observer_settings)
    (obs : pbio_observer) (inp : observer_input) (rest : List observer_input) :
    observer_run m s obs (inp :: rest) =
      observer_run m s
        (pbio_observer_update m s obs inp.time inp.angle inp.actuation inp.voltage) rest := by
  rfl

lemma pbio_observer_update_non_voltage_stalled (m : pbio_observer_model)
    (s : pbio_observer_settings) (obs : pbio_observer) (time : Nat)
    (angle : pbio_angle) (act : pbio_dcmotor_actuation) (voltage : Int)
    (h : act ≠ pbio_dcmotor_actuation.voltage) :
    (pbio_observer_update m s obs time angle act voltage).stalled = false := by
  rw [pbio_observer_update_stalled]
  exact update_stall_state_non_voltage _ _ _ _ _ _ _ h

lemma observer_run_non_voltage (m : pbio_observer_model) (s : pbio_observer_settings) :
    ∀ (inputs : List observer_input) (obs : pbio_observer),
      (∀ i ∈ inputs, i.actuation ≠ pbio_dcmotor_actuation.voltage) →
      inputs ≠ [] →
      (observer_run m s obs inputs).stalled = false
  | [], _, _, hne => absurd rfl hne
  | [inp], obs, h, _ => by
    rw [observer_run_cons]
    exact pbio_observer_update_non_voltage_stalled m s obs inp.time inp.angle
      inp.actuation inp.voltage (h inp (List.mem_cons_self inp []))
  | inp :: r :: rs, obs, h, _ => by
    rw [observer_run_cons]
    exact observer_run_non_voltage m s (r :: rs) _
      (fun i hi => h i (List.mem_cons_of_mem inp hi)) (by simp)

/-- C5: for every sequence of `pbio_observer_update` calls in which every call
has an actuation kind different from `VOLTAGE`, the `stalled` flag is false
after every call (i.e. after every prefix of the run), regardless of the other
inputs and the prior state. -/
theorem C5_non_voltage_never_stalls (m : pbio_observer_model)
    (s : pbio_observer_settings) (obs : pbio_observer)
    (inputs : List observer_input)
    (h : ∀ i ∈ inputs, i.actuation ≠ pbio_dcmotor_actuation.voltage) :
    ∀ n < inputs.length, (observer_run m s obs (inputs.take (n + 1))).stalled = false := by
  intro n hn
  refine observer_run_non_voltage m s (inputs.take (n + 1)) obs
    (fun i hi => h i (List.take_subset _ _ hi)) ?_
  have hlen : (inputs.take (n + 1)).length = n + 1 := by
    rw [List.length_take]
    omega
  intro hempty
  rw [hempty] at hlen
  simp at hlen

/-- Witness for C5 at a concrete one-element run with COAST actuation. -/
theorem C5_witness :
    (observer_run mdl1 set1 obs0
      ([⟨3, ⟨0, 0⟩, pbio_dcmotor_actuation.coast, 500⟩].take 1)).stalled = false :=
  C5_non_voltage_never_stalls mdl1 set1 obs0
    [⟨3, ⟨0, 0⟩, pbio_dcmotor_actuation.coast, 500⟩]
    (by decide) 0 (by decide)

/-- C10: whenever `pbio_observer_is_stalled` returns false — in particular
immediately after `pbio_observer_reset` — it writes exactly 0 to the
`stall_duration` output parameter. -/
theorem C10_duration_zero_when_not_stalled (s : pbio_observer_settings)
    (obs : pbio_observer) (time : Nat) :
    ((pbio_observer_is_stalled s obs time).1 = false →
      (pbio_observer_is_stalled s obs time).2 = 0) ∧
    (∀ angle, pbio_observer_is_stalled s (pbio_observer_reset obs angle) time = (false, 0)) := by
  constructor
  · unfold pbio_observer_is_stalled
    split_ifs with h
    · intro hfalse
      simp at hfalse
    · intro _
      rfl
  · intro angle
    unfold pbio_observer_is_stalled pbio_observer_reset
    rw [if_neg]
    simp

/-- Witness for C10 at a concrete non-stalled observer state. -/
theorem C10_witness : (pbio_observer_is_stalled set1 obs0 12345).2 = 0 :=
  (C10_duration_zero_when_not_stalled set1 obs0 12345).1 (by decide)

/-- C9: `pbio_tacho_setup` (also when reached through `pbio_tacho_get` with a
valid port) returns `PBIO_ERROR_INVALID_ARG` whenever `gear_ratio` or
`counts_per_degree` is negative, and in that case returns before mutating the
tacho configuration (the state is returned unchanged) or touching the counter
device (the touched flag is false). -/
theorem C9_setup_rejects_negative_scale (env : pbdrv_counter_env)
    (tacho : pbio_tacho) (direction : pbio_direction)
    (counts_per_degree gearRatio : Int)
    (h : gearRatio < 0 ∨ counts_per_degree < 0) :
    pbio_tacho_setup env tacho direction counts_per_degree gearRatio =
      (pbio_error.invalid_arg, tacho, false) ∧
    (∀ first_port last_port port : Int, first_port ≤ port → port ≤ last_port →
      pbio_tacho_get env first_port last_port port tacho direction counts_per_degree gearRatio =
        (pbio_error.invalid_arg, tacho, false)) := by
  have hsetup : pbio_tacho_setup env tacho direction counts_per_degree gearRatio =
      (pbio_error.invalid_arg, tacho, false) := by
    unfold pbio_tacho_setup
    rw [if_pos h]
  refine ⟨hsetup, ?_⟩
  intro first_port last_port port h1 h2
  unfold pbio_tacho_get
  rw [if_neg (by omega), hsetup]

/-- Witness for C9 at a concrete negative gear ratio. -/
theorem C9_witness :
    pbio_tacho_setup env9 tacho9 pbio_direction.clockwise 100 (-1) =
      (pbio_error.invalid_arg, tacho9, false) ∧
    pbio_tacho_get env9 0 3 1 tacho9 pbio_direction.clockwise 100 (-1) =
      (pbio_error.invalid_arg, tacho9, false) := by
  have h := C9_setup_rejects_negative_scale env9 tacho9 pbio_direction.clockwise 100 (-1)
    (Or.inl (by decide))
  exact ⟨h.1, h.2 0 3 1 (by decide) (by decide)⟩

/-- C6: the friction torque term used by `pbio_observer_update` is half the
model's static friction torque, its sign following the sign of the current
estimated speed (positive speed gives `+torque_friction / 2`, negative speed
gives `-torque_friction / 2`); at speed exactly zero the non-positive branch
applies and the term is `-torque_friction / 2`.  It is a function of the model
and the estimated speed only, hence independent of the applied voltage. -/
theorem C6_friction_torque_sign (m : pbio_observer_model) (speed : Int) :
    (0 < speed → friction_torque m speed = cdiv m.torque_friction 2) ∧
    (speed < 0 → friction_torque m speed = -cdiv m.torque_friction 2) ∧
    (speed = 0 → friction_torque m speed = -cdiv m.torque_friction 2) ∧
    (0 ≤ m.torque_friction → 0 < speed → 0 ≤ friction_torque m speed) ∧
    (0 ≤ m.torque_friction → speed ≤ 0 → friction_torque m speed ≤ 0) := by
  have hneg : cdiv (-m.torque_friction) 2 = -cdiv m.torque_friction 2 := by
    unfold cdiv
    exact Int.neg_tdiv m.torque_friction 2
  have hpos : 0 < speed → friction_torque m speed = cdiv m.torque_friction 2 := by
    intro h
    unfold friction_torque
    rw [if_pos h]
  have hle : speed ≤ 0 → friction_torque m speed = -cdiv m.torque_friction 2 := by
    intro h
    unfold friction_torque
    rw [if_neg (by omega), hneg]
  refine ⟨hpos, fun h => hle (le_of_lt h), fun h => hle (le_of_eq h), ?_, ?_⟩
  · intro htf h
    rw [hpos h]
    exact Int.tdiv_nonneg htf (by norm_num)
  · intro htf h
    rw [hle h]
    have : 0 ≤ cdiv m.torque_friction 2 := Int.tdiv_nonneg htf (by norm_num)
    omega

/-- Witness for C6 at positive, negative and zero speed for a concrete model. -/
theorem C6_witness :
    friction_torque mdl4 5 = cdiv mdl4.torque_friction 2 ∧
    friction_torque mdl4 (-5) = -cdiv mdl4.torque_friction 2 ∧
    friction_torque mdl4 0 = -cdiv mdl4.torque_friction 2 :=
  ⟨(C6_friction_torque_sign mdl4 5).1 (by decide),
   (C6_friction_torque_sign mdl4 (-5)).2.1 (by decide),
   (C6_friction_torque_sign mdl4 0).2.2.1 rfl⟩

/-- C2: for a `VOLTAGE`-actuation update step, `stalled` is set to true exactly
when all four normalized stall conditions hold (speed below the stall speed
limit, negative feedback voltage, feedback magnitude above 3/4 of the drive
voltage, and drive voltage above 5 times the voltage equivalent of half the
friction torque, all after negating speed/voltage/feedback together when the
commanded voltage is negative), with `stall_start` latched to the current time
only on the rising edge of this condition; it is left unchanged while the
condition keeps holding and when the condition fails. -/
theorem C2_stall_predicate (m : pbio_observer_model) (s : pbio_observer_settings)
    (obs : pbio_observer) (inp : observer_input)
    (hact : inp.actuation = pbio_dcmotor_actuation.voltage) :
    ((update_stall_state m s obs inp.time inp.actuation inp.voltage
        (pbio_observer_get_feedback_voltage s obs inp.angle)).stalled = true ↔
      stall_condition m s obs inp) ∧
    (stall_condition m s obs inp → obs.stalled = false →
      (update_stall_state m s obs inp.time inp.actuation inp.voltage
        (pbio_observer_get_feedback_voltage s obs inp.angle)).stall_start = inp.time) ∧
    (obs.stalled = true →
      (update_stall_state m s obs inp.time inp.actuation inp.voltage
        (pbio_observer_get_feedback_voltage s obs inp.angle)).stall_start = obs.stall_start) ∧
    (¬ stall_condition m s obs inp →
      (update_stall_state m s obs inp.time inp.actuation inp.voltage
        (pbio_observer_get_feedback_voltage s obs inp.angle)).stall_start = obs.stall_start) := by
  unfold update_stall_state stall_condition
  rw [if_neg (by simp [hact])]
  simp only [hact]
  split_ifs <;> simp_all

/-- Witness for C2 at a concrete stalling input from a non-stalled state. -/
theorem C2_witness :
    (update_stall_state mdl1 set1 obs0 inp_stall.time inp_stall.actuation inp_stall.voltage
      (pbio_observer_get_feedback_voltage set1 obs0 inp_stall.angle)).stalled = true ∧
    (update_stall_state mdl1 set1 obs0 inp_stall.time inp_stall.actuation inp_stall.voltage
      (pbio_observer_get_feedback_voltage set1 obs0 inp_stall.angle)).stall_start =
      inp_stall.time := by
  have h := C2_stall_predicate mdl1 set1 obs0 inp_stall rfl
  exact ⟨h.1.mpr (by decide), h.2.1 (by decide) rfl⟩

lemma feedback_voltage_update_aux (s : pbio_observer_settings) (obs : pbio_observer)
    (x : Int) (d : pbio_differentiator) (a : pbio_angle) :
    pbio_observer_get_feedback_voltage s
      { obs with speed_numeric := x, differentiator := d } a =
    pbio_observer_get_feedback_voltage s obs a := rfl

lemma pbio_observer_update_speed (m : pbio_observer_model) (s : pbio_observer_settings)
    (obs : pbio_observer) (time : Nat) (angle : pbio_angle)
    (act : pbio_dcmotor_actuation) (voltage : Int) :
    (pbio_observer_update m s obs time angle act voltage).speed =
      (if (decide (pbio_int_math_clamp
            (observer_speed_next_unclamped m obs.speed obs.current
              (voltage + pbio_observer_get_feedback_voltage s obs angle)
              (friction_torque m obs.speed)) MAX_NUM_SPEED < 0)) ≠
          (decide (pbio_int_math_clamp
            (observer_speed_next_unclamped m obs.speed obs.current
              (voltage + pbio_observer_get_feedback_voltage s obs angle)
              (friction_torque m obs.speed)) MAX_NUM_SPEED -
            observer_speed_torque_term m (friction_torque m obs.speed) < 0)) then 0
       else
        pbio_int_math_clamp
          (observer_speed_next_unclamped m obs.speed obs.current
            (voltage + pbio_observer_get_feedback_voltage s obs angle)
            (friction_torque m obs.speed)) MAX_NUM_SPEED) := by
  unfold pbio_observer_update
  simp only [update_stall_state_speed, update_stall_state_current, feedback_voltage_update_aux]

lemma pbio_observer_update_current (m : pbio_observer_model) (s : pbio_observer_settings)
    (obs : pbio_observer) (time : Nat) (angle : pbio_angle)
    (act : pbio_dcmotor_actuation) (voltage : Int) :
    (pbio_observer_update m s obs time angle act voltage).current =
      pbio_int_math_clamp
        (observer_current_next_unclamped m obs.speed obs.current
          (voltage + pbio_observer_get_feedback_voltage s obs angle)
          (friction_torque m obs.speed)) MAX_NUM_CURRENT := by
  unfold pbio_observer_update
  simp only [update_stall_state_speed, update_stall_state_current, feedback_voltage_update_aux]

lemma pbio_int_math_clamp_bounds (v absMax : Int) (h : 0 ≤ absMax) :
    -absMax ≤ pbio_int_math_clamp v absMax ∧ pbio_int_math_clamp v absMax ≤ absMax := by
  unfold pbio_int_math_clamp
  split_ifs <;> omega

lemma pbio_int_math_clamp_high (v absMax : Int) (h : v > absMax) :
    pbio_int_math_clamp v absMax = absMax := by
  unfold pbio_int_math_clamp
  rw [if_pos h]

lemma pbio_int_math_clamp_low (v absMax : Int) (h0 : 0 ≤ absMax) (h : v < -absMax) :
    pbio_int_math_clamp v absMax = -absMax := by
  unfold pbio_int_math_clamp
  rw [if_neg (by omega), if_pos h]

lemma pbio_int_math_clamp_id (v absMax : Int) (h1 : -absMax ≤ v) (h2 : v ≤ absMax) :
    pbio_int_math_clamp v absMax = v := by
  unfold pbio_int_math_clamp
  rw [if_neg (by omega), if_neg (by omega)]

/-- C3: in every update step, if the sign test on the committed candidate speed
(with the friction torque term included) differs from the sign test on that
candidate with the torque contribution subtracted, the committed speed is
exactly 0. -/
theorem C3_zero_crossing_guard (m : pbio_observer_model) (s : pbio_observer_settings)
    (obs : pbio_observer) (time : Nat) (angle : pbio_angle)
    (act : pbio_dcmotor_actuation) (voltage : Int)
    (h : (decide (pbio_int_math_clamp
            (observer_speed_next_unclamped m obs.speed obs.current
              (voltage + pbio_observer_get_feedback_voltage s obs angle)
              (friction_torque m obs.speed)) MAX_NUM_SPEED < 0)) ≠
         (decide (pbio_int_math_clamp
            (observer_speed_next_unclamped m obs.speed obs.current
              (voltage + pbio_observer_get_feedback_voltage s obs angle)
              (friction_torque m obs.speed)) MAX_NUM_SPEED -
            observer_speed_torque_term m (friction_torque m obs.speed) < 0))) :
    (pbio_observer_update m s obs time angle act voltage).speed = 0 := by
  rw [pbio_observer_update_speed, if_pos h]

/-- Witness for C3: a concrete step where the friction term alone flips the
sign of the new speed; the committed speed is exactly 0. -/
theorem C3_witness :
    (pbio_observer_update mdl4 set1 obs4 0 ⟨0, 0⟩ pbio_dcmotor_actuation.voltage 0).speed = 0 :=
  C3_zero_crossing_guard mdl4 set1 obs4 0 ⟨0, 0⟩ pbio_dcmotor_actuation.voltage 0 (by decide)

/-- C4 (amended): after every `pbio_observer_update` the committed speed lies
in `[-2500000, 2500000]` and the committed current in `[-30000, 30000]`; when
the unclamped current exceeds a bound the committed current equals exactly that
bound; when the unclamped speed exceeds a bound the committed speed equals
exactly that bound or is 0 (zeroed by the zero-crossing guard), and it equals
exactly the bound whenever the zero-crossing guard does not fire. -/
theorem C4_clamp_invariant (m : pbio_observer_model) (s : pbio_observer_settings)
    (obs : pbio_observer) (time : Nat) (angle : pbio_angle)
    (act : pbio_dcmotor_actuation) (voltage : Int) :
    (-MAX_NUM_SPEED ≤ (pbio_observer_update m s obs time angle act voltage).speed ∧
      (pbio_observer_update m s obs time angle act voltage).speed ≤ MAX_NUM_SPEED) ∧
    (-MAX_NUM_CURRENT ≤ (pbio_observer_update m s obs time angle act voltage).current ∧
      (pbio_observer_update m s obs time angle act voltage).current ≤ MAX_NUM_CURRENT) ∧
    (observer_current_next_unclamped m obs.speed obs.current
        (voltage + pbio_observer_get_feedback_voltage s obs angle)
        (friction_torque m obs.speed) > MAX_NUM_CURRENT →
      (pbio_observer_update m s obs time angle act voltage).current = MAX_NUM_CURRENT) ∧
    (observer_current_next_unclamped m obs.speed obs.current
        (voltage + pbio_observer_get_feedback_voltage s obs angle)
        (friction_torque m obs.speed) < -MAX_NUM_CURRENT →
      (pbio_observer_update m s obs time angle act voltage).current = -MAX_NUM_CURRENT) ∧
    (observer_speed_next_unclamped m obs.speed obs.current
        (voltage + pbio_observer_get_feedback_voltage s obs angle)
        (friction_torque m obs.speed) > MAX_NUM_SPEED →
      ((pbio_observer_update m s obs time angle act voltage).speed = MAX_NUM_SPEED ∨
        (pbio_observer_update m s obs time angle act voltage).speed = 0)) ∧
    (observer_speed_next_unclamped m obs.speed obs.current
        (voltage + pbio_observer_get_feedback_voltage s obs angle)
        (friction_torque m obs.speed) < -MAX_NUM_SPEED →
      ((pbio_observer_update m s obs time angle act voltage).speed = -MAX_NUM_SPEED ∨
        (pbio_observer_update m s obs time angle act voltage).speed = 0)) ∧
    ((decide (pbio_int_math_clamp
        (observer_speed_next_unclamped m obs.speed obs.current
          (voltage + pbio_observer_get_feedback_voltage s obs angle)
          (friction_torque m obs.speed)) MAX_NUM_SPEED < 0)) =
      (decide (pbio_int_math_clamp
        (observer_speed_next_unclamped m obs.speed obs.current
          (voltage + pbio_observer_get_feedback_voltage s obs angle)
          (friction_torque m obs.speed)) MAX_NUM_SPEED -
        observer_speed_torque_term m (friction_torque m obs.speed) < 0)) →
      (pbio_observer_update m s obs time angle act voltage).speed =
        pbio_int_math_clamp
          (observer_speed_next_unclamped m obs.speed obs.current
            (voltage + pbio_observer_get_feedback_voltage s obs angle)
            (friction_torque m obs.speed)) MAX_NUM_SPEED) := by
  rw [pbio_observer_update_speed, pbio_observer_update_current]
  have hs := pbio_int_math_clamp_bounds
    (observer_speed_next_unclamped m obs.speed obs.current
      (voltage + pbio_observer_get_feedback_voltage s obs angle)
      (friction_torque m obs.speed)) MAX_NUM_SPEED (by norm_num [MAX_NUM_SPEED])
  have hc := pbio_int_math_clamp_bounds
    (observer_current_next_unclamped m obs.speed obs.current
      (voltage + pbio_observer_get_feedback_voltage s obs angle)
      (friction_torque m obs.speed)) MAX_NUM_CURRENT (by norm_num [MAX_NUM_CURRENT])
  refine ⟨?_, ⟨hc.1, hc.2⟩, ?_, ?_, ?_, ?_, ?_⟩
  · split_ifs with hg
    · norm_num [MAX_NUM_SPEED]
    · exact hs
  · intro h
    exact pbio_int_math_clamp_high _ _ h
  · intro h
    exact pbio_int_math_clamp_low _ _ (by norm_num [MAX_NUM_CURRENT]) h
  · intro h
    split_ifs with hg
    · exact Or.inr rfl
    · exact Or.inl (pbio_int_math_clamp_high _ _ h)
  · intro h
    split_ifs with hg
    · exact Or.inr rfl
    · exact Or.inl (pbio_int_math_clamp_low _ _ (by norm_num [MAX_NUM_SPEED]) h)
  · intro h
    rw [if_neg (by simp [h])]

/-- Witness for C4 at a concrete step whose unclamped current and speed both
exceed their positive bounds. -/
theorem C4_witness :
    ((pbio_observer_update mdl4 set1 obs4 0 ⟨0, 0⟩ pbio_dcmotor_actuation.voltage 0).current =
      MAX_NUM_CURRENT) ∧
    ((pbio_observer_update mdl4 set1 obs4 0 ⟨0, 0⟩ pbio_dcmotor_actuation.voltage 0).speed =
        MAX_NUM_SPEED ∨
      (pbio_observer_update mdl4 set1 obs4 0 ⟨0, 0⟩ pbio_dcmotor_actuation.voltage 0).speed = 0) := by
  have h := C4_clamp_invariant mdl4 set1 obs4 0 ⟨0, 0⟩ pbio_dcmotor_actuation.voltage 0
  exact ⟨h.2.2.1 (by decide), h.2.2.2.2.1 (by decide)⟩

/-- Counterexample for C4 as stated: a concrete update step whose unclamped
speed exceeds `MAX_NUM_SPEED`, yet the committed speed is 0, not the bound
(the zero-crossing guard fires after clamping). -/
theorem C4_counterexample :
    pbio_observer_get_feedback_voltage set1 obs4 ⟨0, 0⟩ = 0 ∧
    observer_speed_next_unclamped mdl4 obs4.speed obs4.current 0 (friction_torque mdl4 obs4.speed) >
      MAX_NUM_SPEED ∧
    (pbio_observer_update mdl4 set1 obs4 0 ⟨0, 0⟩ pbio_dcmotor_actuation.voltage 0).speed = 0 ∧
    (0 : Int) ≠ MAX_NUM_SPEED := by
  refine ⟨by decide, by decide, ?_, by decide⟩
  decide

lemma update_stall_state_rising (m : pbio_observer_model) (s : pbio_observer_settings)
    (obs : pbio_observer) (inp : observer_input)
    (hc : stall_condition m s obs inp) (h0 : obs.stalled = false) :
    (update_stall_state m s obs inp.time inp.actuation inp.voltage
      (pbio_observer_get_feedback_voltage s obs inp.angle)).stalled = true ∧
    (update_stall_state m s obs inp.time inp.actuation inp.voltage
      (pbio_observer_get_feedback_voltage s obs inp.angle)).stall_start = inp.time := by
  obtain ⟨hact, hrest⟩ := hc
  unfold update_stall_state
  rw [if_neg (by simp [hact])]
  split_ifs <;> simp_all

lemma update_stall_state_holding (m : pbio_observer_model) (s : pbio_observer_settings)
    (obs : pbio_observer) (inp : observer_input)
    (hc : stall_condition m s obs inp) (h1 : obs.stalled = true) :
    (update_stall_state m s obs inp.time inp.actuation inp.voltage
      (pbio_observer_get_feedback_voltage s obs inp.angle)).stalled = true ∧
    (update_stall_state m s obs inp.time inp.actuation inp.voltage
      (pbio_observer_get_feedback_voltage s obs inp.angle)).stall_start = obs.stall_start := by
  obtain ⟨hact, hrest⟩ := hc
  unfold update_stall_state
  rw [if_neg (by simp [hact])]
  split_ifs <;> simp_all

lemma pbio_observer_update_rising (m : pbio_observer_model) (s : pbio_observer_settings)
    (obs : pbio_observer) (inp : observer_input)
    (hc : stall_condition m s obs inp) (h0 : obs.stalled = false) :
    (pbio_observer_update m s obs inp.time inp.angle inp.actuation inp.voltage).stalled = true ∧
    (pbio_observer_update m s obs inp.time inp.angle inp.actuation inp.voltage).stall_start =
      inp.time := by
  rw [pbio_observer_update_stalled, pbio_observer_update_stall_start]
  exact update_stall_state_rising m s
    { obs with
      speed_numeric := (pbio_differentiator_get_speed obs.differentiator inp.angle).1
      differentiator := (pbio_differentiator_get_speed obs.differentiator inp.angle).2 }
    inp hc h0

lemma pbio_observer_update_holding (m : pbio_observer_model) (s : pbio_observer_settings)
    (obs : pbio_observer) (inp : observer_input)
    (hc : stall_condition m s obs inp) (h1 : obs.stalled = true) :
    (pbio_observer_update m s obs inp.time inp.angle inp.actuation inp.voltage).stalled = true ∧
    (pbio_observer_update m s obs inp.time inp.angle inp.actuation inp.voltage).stall_start =
      obs.stall_start := by
  rw [pbio_observer_update_stalled, pbio_observer_update_stall_start]
  exact update_stall_state_holding m s
    { obs with
      speed_numeric := (pbio_differentiator_get_speed obs.differentiator inp.angle).1
      differentiator := (pbio_differentiator_get_speed obs.differentiator inp.angle).2 }
    inp hc h1

lemma observer_run_stalled_from (m : pbio_observer_model) (s : pbio_observer_settings) :
    ∀ (inputs : List observer_input) (obs : pbio_observer),
      stall_condition_all m s obs inputs → obs.stalled = true →
      (observer_run m s obs inputs).stalled = true ∧
      (observer_run m s obs inputs).stall_start = obs.stall_start
  | [], _, _, h1 => ⟨h1, rfl⟩
  | inp :: rest, obs, hall, h1 => by
    rw [observer_run_cons]
    have hstep := pbio_observer_update_holding m s obs inp hall.1 h1
    have hrec := observer_run_stalled_from m s rest
      (pbio_observer_update m s obs inp.time inp.angle inp.actuation inp.voltage)
      hall.2 hstep.1
    exact ⟨hrec.1, by rw [hrec.2, hstep.2]⟩

lemma observer_run_latches (m : pbio_observer_model) (s : pbio_observer_settings)
    (obs : pbio_observer) (inp : observer_input) (rest : List observer_input)
    (hall : stall_condition_all m s obs (inp :: rest)) (h0 : obs.stalled = false) :
    (observer_run m s obs (inp :: rest)).stalled = true ∧
    (observer_run m s obs (inp :: rest)).stall_start = inp.time := by
  rw [observer_run_cons]
  have hstep := pbio_observer_update_rising m s obs inp hall.1 h0
  have hrec := observer_run_stalled_from m s rest
    (pbio_observer_update m s obs inp.time inp.angle inp.actuation inp.voltage)
    hall.2 hstep.1
  exact ⟨hrec.1, by rw [hrec.2, hstep.2]⟩

lemma u32_sub_of_le (a b : Nat) (hb : b ≤ a) (ha : a < 4294967296) :
    u32_sub a b = a - b := by
  unfold u32_sub
  omega

/-- C1 (amended): if the per-tick stall condition first becomes true at tick
`T = inp.time` (rising edge from a non-stalled state) and holds continuously
through every subsequent update, then `pbio_observer_is_stalled` at time `t`
returns true exactly when `t > T + stall_time` — i.e. starting at
`T + stall_time + 1`, one tick later than the claim states, and never earlier —
and whenever it returns true the reported duration equals `t - T` exactly. -/
theorem C1_amended (m : pbio_observer_model) (s : pbio_observer_settings)
    (obs : pbio_observer) (inp : observer_input) (rest : List observer_input) (t : Nat)
    (h0 : obs.stalled = false)
    (hall : stall_condition_all m s obs (inp :: rest))
    (ht1 : inp.time ≤ t) (ht2 : t < 4294967296) :
    ((pbio_observer_is_stalled s (observer_run m s obs (inp :: rest)) t).1 = true ↔
      inp.time + s.stall_time < t) ∧
    (inp.time + s.stall_time < t →
      pbio_observer_is_stalled s (observer_run m s obs (inp :: rest)) t =
        (true, t - inp.time)) := by
  have hlat := observer_run_latches m s obs inp rest hall h0
  have hsub : u32_sub t (observer_run m s obs (inp :: rest)).stall_start = t - inp.time := by
    rw [hlat.2]
    exact u32_sub_of_le t inp.time ht1 ht2
  unfold pbio_observer_is_stalled
  rw [hlat.1, hsub]
  constructor
  · constructor
    · intro h
      by_cases hgt : t - inp.time > s.stall_time
      · omega
      · rw [if_neg (by simp [hgt])] at h
        simp at h
    · intro h
      rw [if_pos ⟨rfl, by omega⟩]
  · intro h
    rw [if_pos ⟨rfl, by omega⟩]

/-- Counterexample for C1 as stated: the stall condition first becomes true at
tick `T = 0` (and the update latches `stalled`, `stall_start := 0`), yet at
`t = T + stall_time` the debounce comparison `time - stall_start > stall_time`
is strictly false, so `is_stalled` still returns false (and duration 0) instead
of the true the claim requires at `T + stall_time`. -/
theorem C1_counterexample :
    obs0.stalled = false ∧
    stall_condition mdl1 set1 obs0 inp_stall ∧
    inp_stall.time = 0 ∧
    (observer_run mdl1 set1 obs0 [inp_stall]).stalled = true ∧
    (observer_run mdl1 set1 obs0 [inp_stall]).stall_start = 0 ∧
    pbio_observer_is_stalled set1 (observer_run mdl1 set1 obs0 [inp_stall])
      (0 + set1.stall_time) = (false, 0) := by
  refine ⟨rfl, by decide, rfl, ?_, ?_, ?_⟩ <;> decide

/-- Witness for C1 (amended) at `t = 101 = T + stall_time + 1`. -/
theorem C1_witness :
    pbio_observer_is_stalled set1 (observer_run mdl1 set1 obs0 [inp_stall]) 101 =
      (true, 101) :=
  (C1_amended mdl1 set1 obs0 inp_stall [] 101 rfl (by decide) (by decide) (by decide)).2
    (by decide)

lemma task_drain_spec (w : task_world) :
    ∀ (fuel k j : Nat) (st : pbio_error),
      task_drain w fuel k = some (j, st) →
      st ≠ pbio_error.again ∧ st = w.cancel_status j ∧ k ≤ j ∧
        (∀ i, k ≤ i → i < j → w.cancel_status i = pbio_error.again)
  | 0, k, j, st, h => by simp [task_drain] at h
  | fuel + 1, k, j, st, h => by
    unfold task_drain at h
    split_ifs at h with hc
    · have hrec := task_drain_spec w fuel (k + 1) j st h
      refine ⟨hrec.1, hrec.2.1, by omega, ?_⟩
      intro i h1 h2
      rcases Nat.eq_or_lt_of_le h1 with he | hlt
      · rw [he] at hc
        exact hc
      · exact hrec.2.2.2 i hlt h2
    · simp only [Option.some.injEq, Prod.mk.injEq] at h
      obtain ⟨hkj, hst⟩ := h
      subst hkj
      subst hst
      refine ⟨hc, rfl, Nat.le_refl k, ?_⟩
      intro i h1 h2
      exact absurd h2 (by omega)

lemma drain_and_abort_spec (w : task_world) (drainFuel : Nat) (e e' : mp_exc)
    (st : pbio_error)
    (h : drain_and_abort w drainFuel e = some (wrapper_outcome.aborted e' st)) :
    e' = e ∧ st ≠ pbio_error.again ∧
      ∃ j, st = w.cancel_status j ∧
        ∀ i, i < j → w.cancel_status i = pbio_error.again := by
  unfold drain_and_abort at h
  cases hd : task_drain w drainFuel 0 with
  | none => rw [hd] at h; simp at h
  | some r =>
    rw [hd] at h
    have h2 : wrapper_outcome.aborted e r.2 = wrapper_outcome.aborted e' st := by
      simpa using h
    injection h2 with he hst
    subst he
    subst hst
    have hs := task_drain_spec w drainFuel 0 r.1 r.2 (by rw [hd])
    exact ⟨rfl, hs.1, r.1, hs.2.1, fun i hi => hs.2.2.2 i (Nat.zero_le i) hi⟩

lemma remote_connect_loop_aborted (w : task_world) (timeout : Int) (drainFuel : Nat) :
    ∀ (fuel n : Nat) (e : mp_exc) (st : pbio_error),
      remote_connect_loop w timeout drainFuel fuel n =
        some (wrapper_outcome.aborted e st) →
      st ≠ pbio_error.again ∧
        ∃ j, st = w.cancel_status j ∧
          ∀ i, i < j → w.cancel_status i = pbio_error.again
  | 0, n, e, st, h => by
    unfold remote_connect_loop at h
    exact absurd h (by simp)
  | fuel + 1, n, e, st, h => by
    unfold remote_connect_loop at h
    split_ifs at h with h1 h2 h3
    · exact ((drain_and_abort_spec w drainFuel mp_exc.interrupted e st h).2)
    · simp at h
    · exact remote_connect_loop_aborted w timeout drainFuel fuel (n + 1) e st h
    · exact ((drain_and_abort_spec w drainFuel mp_exc.timedout e st h).2)

lemma device_wait_loop_aborted (w : task_world) (drainFuel : Nat) :
    ∀ (fuel n : Nat) (e : mp_exc) (st : pbio_error),
      device_wait_loop w drainFuel fuel n = some (wrapper_outcome.aborted e st) →
      st ≠ pbio_error.again ∧
        ∃ j, st = w.cancel_status j ∧
          ∀ i, i < j → w.cancel_status i = pbio_error.again
  | 0, n, e, st, h => by
    unfold device_wait_loop at h
    exact absurd h (by simp)
  | fuel + 1, n, e, st, h => by
    unfold device_wait_loop at h
    split_ifs at h with h1 h2
    · simp at h
    · exact ((drain_and_abort_spec w drainFuel mp_exc.interrupted e st h).2)
    · exact device_wait_loop_aborted w drainFuel fuel (n + 1) e st h

/-- C8: whenever a blocking wrapper (`pb_remote_connect` or the device `wait`
helper) aborts before the task reaches a terminal status — because the timeout
elapsed or an interrupt arrived during polling — it propagates the abort only
after the task's cancel function has been invoked (the drain polls the
post-cancel status trace) and the task has been polled until its status is no
longer `again`: every status observed before the final one was `again`, and
the final status propagated alongside the abort is not `again`.  The task is
never abandoned in the `again` state. -/
theorem C8_abort_drains_before_propagating (w : task_world) (timeout : Int)
    (fuel drainFuel : Nat) (e : mp_exc) (st : pbio_error) :
    (pb_remote_connect w timeout fuel drainFuel = some (wrapper_outcome.aborted e st) →
      st ≠ pbio_error.again ∧
        ∃ j, st = w.cancel_status j ∧
          ∀ i, i < j → w.cancel_status i = pbio_error.again) ∧
    (device_wait w fuel drainFuel = some (wrapper_outcome.aborted e st) →
      st ≠ pbio_error.again ∧
        ∃ j, st = w.cancel_status j ∧
          ∀ i, i < j → w.cancel_status i = pbio_error.again) :=
  ⟨fun h => remote_connect_loop_aborted w timeout drainFuel fuel 0 e st h,
   fun h => device_wait_loop_aborted w drainFuel fuel 0 e st h⟩

/-- Witness for C8: a concrete world where an interrupt arrives at iteration 1
and cancellation drains to `canceled` after two `again` polls. -/
theorem C8_witness :
    pb_remote_connect w8 1000 10 10 =
      some (wrapper_outcome.aborted mp_exc.interrupted pbio_error.canceled) ∧
    pbio_error.canceled ≠ pbio_error.again ∧
    (∃ j, pbio_error.canceled = w8.cancel_status j ∧
      ∀ i, i < j → w8.cancel_status i = pbio_error.again) := by
  have hrun : pb_remote_connect w8 1000 10 10 =
      some (wrapper_outcome.aborted mp_exc.interrupted pbio_error.canceled) := by decide
  have h := (C8_abort_drains_before_propagating w8 1000 10 10 mp_exc.interrupted
    pbio_error.canceled).1 hrun
  exact ⟨hrun, h.1, h.2⟩

lemma cdiv_neg_num (a b : Int) : cdiv (-a) b = -cdiv a b := by
  unfold cdiv
  exact Int.neg_tdiv a b

lemma cdiv_eq_ediv (a b : Int) (ha : 0 ≤ a) (hb : 0 ≤ b) : cdiv a b = a / b := by
  unfold cdiv
  exact Int.tdiv_eq_ediv ha hb

lemma pbio_int_math_clamp_neg (v absMax : Int) (h : 0 ≤ absMax) :
    pbio_int_math_clamp (-v) absMax = -pbio_int_math_clamp v absMax := by
  unfold pbio_int_math_clamp
  split_ifs <;> omega

lemma torque_to_voltage_neg (m : pbio_observer_model) (t : Int) :
    pbio_observer_torque_to_voltage m (-t) = -pbio_observer_torque_to_voltage m t := by
  unfold pbio_observer_torque_to_voltage
  rw [pbio_int_math_clamp_neg _ _ (by norm_num [MAX_NUM_TORQUE]), mul_neg, cdiv_neg_num]

lemma voltage_to_torque_neg (m : pbio_observer_model) (v : Int) :
    pbio_observer_voltage_to_torque m (-v) = -pbio_observer_voltage_to_torque m v := by
  unfold pbio_observer_voltage_to_torque
  rw [pbio_int_math_clamp_neg _ _ (by norm_num [MAX_NUM_VOLTAGE]), mul_neg, cdiv_neg_num]

lemma roundtrip_nonneg (m : pbio_observer_model) (t : Int)
    (h1 : 0 < m.d_voltage_d_torque) (h2 : 0 < m.d_torque_d_voltage)
    (h3 : m.d_voltage_d_torque * m.d_torque_d_voltage = PRESCALE_TORQUE * PRESCALE_VOLTAGE)
    (h4 : PRESCALE_TORQUE * MAX_NUM_TORQUE ≤ MAX_NUM_VOLTAGE * m.d_voltage_d_torque)
    (h5 : 0 ≤ t) (h6 : t ≤ MAX_NUM_TORQUE) :
    0 ≤ t - pbio_observer_voltage_to_torque m (pbio_observer_torque_to_voltage m t) ∧
    2147 * (t - pbio_observer_voltage_to_torque m (pbio_observer_torque_to_voltage m t)) ≤
      m.d_voltage_d_torque + 2146 := by
  simp only [PRESCALE_TORQUE, PRESCALE_VOLTAGE, MAX_NUM_TORQUE, MAX_NUM_VOLTAGE] at h3 h4 h6
  set d1 := m.d_voltage_d_torque with hd1
  set d2 := m.d_torque_d_voltage with hd2
  have hd1d2 : d1 * d2 = 384218532 := by rw [h3]; norm_num
  unfold pbio_observer_voltage_to_torque pbio_observer_torque_to_voltage
  simp only [PRESCALE_TORQUE, PRESCALE_VOLTAGE, MAX_NUM_TORQUE, MAX_NUM_VOLTAGE]
  rw [pbio_int_math_clamp_id t 1000000 (by omega) h6]
  rw [cdiv_eq_ediv (2147 * t) d1 (by omega) h1.le]
  set v := (2147 * t) / d1 with hv
  have hv0 : 0 ≤ v := Int.ediv_nonneg (by omega) h1.le
  have hv12 : v ≤ 12000 := by
    have hmono : (2147 * t) / d1 ≤ (12000 * d1) / d1 :=
      Int.ediv_le_ediv h1 (by omega)
    rw [Int.mul_ediv_cancel 12000 (by omega)] at hmono
    exact hmono
  rw [pbio_int_math_clamp_id v 12000 (by omega) hv12]
  rw [cdiv_eq_ediv (178956 * v) d2 (by omega) h2.le]
  set w := (178956 * v) / d2 with hw
  have hveq : d1 * v + (2147 * t) % d1 = 2147 * t := Int.ediv_add_emod (2147 * t) d1
  have hweq : d2 * w + (178956 * v) % d2 = 178956 * v := Int.ediv_add_emod (178956 * v) d2
  set r1 := (2147 * t) % d1 with hr1def
  set r2 := (178956 * v) % d2 with hr2def
  have hr1a : 0 ≤ r1 := Int.emod_nonneg (2147 * t) (by omega)
  have hr1b : r1 < d1 := Int.emod_lt_of_pos (2147 * t) h1
  have hr2a : 0 ≤ r2 := Int.emod_nonneg (178956 * v) (by omega)
  have hr2b : r2 < d2 := Int.emod_lt_of_pos (178956 * v) h2
  have key : (384218532 : Int) * (t - w) = d1 * r2 + 178956 * r1 := by
    linear_combination (-178956 : Int) * hveq + (-d1) * hweq + w * hd1d2
  constructor
  · nlinarith [key, hr1a, hr2a, mul_nonneg h1.le hr2a]
  · have e1 : d1 * r2 ≤ d1 * (d2 - 1) := mul_le_mul_of_nonneg_left (by omega) h1.le
    have e2 : (178956 : Int) * r1 ≤ 178956 * (d1 - 1) := by omega
    have e3 : d1 * (d2 - 1) + 178956 * (d1 - 1) ≤ 178956 * (d1 + 2146) := by
      have hx : d1 * (d2 - 1) = d1 * d2 - d1 := by ring
      rw [hx, hd1d2]
      omega
    have hb : (384218532 : Int) * (t - w) ≤ 178956 * (d1 + 2146) := by omega
    have hb2 : (178956 : Int) * (2147 * (t - w)) ≤ 178956 * (d1 + 2146) := by
      have hx : (178956 : Int) * (2147 * (t - w)) = 384218532 * (t - w) := by ring
      rw [hx]
      exact hb
    exact le_of_mul_le_mul_left hb2 (by norm_num)

/-- C7: for every torque `t` in `[-1000000, 1000000]` and a model whose
`d_voltage_d_torque` and `d_torque_d_voltage` coefficients are consistent
inverses under the prescale constants (their product equals
`PRESCALE_TORQUE * PRESCALE_VOLTAGE`, and the full torque range maps inside
the voltage range), `voltage_to_torque (torque_to_voltage t)` equals `t` up to
one prescale unit of integer-division rounding error: the composed conversion
quantizes in steps of `d_voltage_d_torque / PRESCALE_TORQUE` torque units per
millivolt, plus at most one unit for the final division. -/
theorem C7_roundtrip (m : pbio_observer_model) (t : Int)
    (h1 : 0 < m.d_voltage_d_torque) (h2 : 0 < m.d_torque_d_voltage)
    (h3 : m.d_voltage_d_torque * m.d_torque_d_voltage = PRESCALE_TORQUE * PRESCALE_VOLTAGE)
    (h4 : PRESCALE_TORQUE * MAX_NUM_TORQUE ≤ MAX_NUM_VOLTAGE * m.d_voltage_d_torque)
    (h5 : -MAX_NUM_TORQUE ≤ t) (h6 : t ≤ MAX_NUM_TORQUE) :
    |pbio_observer_voltage_to_torque m (pbio_observer_torque_to_voltage m t) - t| ≤
      cdiv m.d_voltage_d_torque PRESCALE_TORQUE + 1 := by
  have hdiv : cdiv m.d_voltage_d_torque PRESCALE_TORQUE = m.d_voltage_d_torque / 2147 := by
    simp only [PRESCALE_TORQUE]
    exact cdiv_eq_ediv _ _ h1.le (by norm_num)
  have hqe := Int.ediv_add_emod m.d_voltage_d_torque 2147
  have hq1 : 0 ≤ m.d_voltage_d_torque % 2147 := Int.emod_nonneg _ (by norm_num)
  have hq2 : m.d_voltage_d_torque % 2147 < 2147 := Int.emod_lt_of_pos _ (by norm_num)
  rw [hdiv]
  rcases le_or_lt 0 t with ht | ht
  · have h := roundtrip_nonneg m t h1 h2 h3 h4 ht h6
    rw [abs_le]
    constructor <;> omega
  · have hu0 : (0 : Int) ≤ -t := by omega
    have hu6 : -t ≤ MAX_NUM_TORQUE := by
      simp only [MAX_NUM_TORQUE] at h5 ⊢
      omega
    have h := roundtrip_nonneg m (-t) h1 h2 h3 h4 hu0 hu6
    have hrw : pbio_observer_voltage_to_torque m (pbio_observer_torque_to_voltage m t) =
        -pbio_observer_voltage_to_torque m (pbio_observer_torque_to_voltage m (-t)) := by
      rw [torque_to_voltage_neg, voltage_to_torque_neg, neg_neg]
    rw [hrw]
    have habs : |-pbio_observer_voltage_to_torque m (pbio_observer_torque_to_voltage m (-t)) - t| =
        |pbio_observer_voltage_to_torque m (pbio_observer_torque_to_voltage m (-t)) - -t| := by
      rw [show -pbio_observer_voltage_to_torque m (pbio_observer_torque_to_voltage m (-t)) - t =
          -(pbio_observer_voltage_to_torque m (pbio_observer_torque_to_voltage m (-t)) - -t) by ring]
      exact abs_neg _
    rw [habs, abs_le]
    constructor <;> omega

/-- Witness for C7 with the exact-inverse model `mdl7` at `t = 999999`
(the actual round-trip loss there is 30, within the allowed 84). -/
theorem C7_witness :
    |pbio_observer_voltage_to_torque mdl7 (pbio_observer_torque_to_voltage mdl7 999999) -
      999999| ≤ cdiv mdl7.d_voltage_d_torque PRESCALE_TORQUE + 1 :=
  C7_roundtrip mdl7 999999 (by decide) (by decide) (by decide) (by decide) (by decide) (by decide)
